import Mathlib

/-!
Shallow embedding of `vfrmap/main.go` from the msfs2020-go repository.

The acquisition goroutine's loop body, the broadcast-message projection and
the coordinator `select` loop are embedded as pure Lean functions; one loop
iteration is a function from the polled dispatch to the list of observable
effects it performs plus an outcome (continue, clean exit, or panic).
Go `float64` telemetry fields are modelled as rationals; `fmt.Sprintf`
fixed-point formatting is modelled with round-half-to-even, which is the
rounding Go's `strconv` fixed-precision formatter uses.
-/

namespace Vfrmap

/-- Decoded telemetry record: struct `Report` in `vfrmap/main.go`.  The
fixed-size `[256]byte` title is modelled as a `String`; the `float64`
telemetry fields are modelled as rationals. -/
structure Report where
  Title : String
  Altitude : ℚ
  Latitude : ℚ
  Longitude : ℚ
  Heading : ℚ
  Airspeed : ℚ
  VerticalSpeed : ℚ
  Flaps : ℚ
  Trim : ℚ
  RudderTrim : ℚ
deriving DecidableEq, Repr

/-- A JSON-able value as it appears in the `map[string]interface{}` literal
handed to `ws.Broadcast`: a raw number, a formatted string, or an integer. -/
inductive JValue where
  | num (q : ℚ)
  | str (s : String)
  | int (n : Int)
deriving DecidableEq, Repr

/-- Round the fraction `num / den` (with `den` positive) to the nearest
integer, ties to even: the rounding used by Go's fixed-precision float
formatting (`strconv`, hence `fmt.Sprintf` with `%.0f` / `%.1f`).  The
fraction `num / den` lies strictly below, strictly above, or exactly at the
halfway point according as `2 * (num - floor * den)` compares with `den`. -/
def roundHalfEvenND (num den : Int) : Int :=
  if 2 * (num - Int.fdiv num den * den) < den then Int.fdiv num den
  else if den < 2 * (num - Int.fdiv num den * den) then Int.fdiv num den + 1
  else if Int.fdiv num den % 2 = 0 then Int.fdiv num den else Int.fdiv num den + 1

/-- Digit characters of `n`, most significant first, accumulator style;
`fuel` bounds the recursion depth. -/
def natDigitsCore : Nat → Nat → List Char → List Char
  | 0, _, acc => acc
  | fuel + 1, n, acc =>
      if n = 0 then acc
      else natDigitsCore fuel (n / 10) (Nat.digitChar (n % 10) :: acc)

/-- Decimal digit characters of a natural number, most significant first. -/
def natDigits (n : Nat) : List Char :=
  if n = 0 then ['0'] else natDigitsCore (n + 1) n []

/-- The leading sign characters Go's `%f` formatting emits: a minus sign for
a negative value, nothing otherwise. -/
def signChars (q : ℚ) : List Char :=
  if q.num < 0 then ['-'] else []

/-- `fmt.Sprintf("%.0f", x)`: sign, then the digits of `|x|` rounded to an
integer (ties to even).  No decimal point is emitted. -/
def fmtF0 (q : ℚ) : String :=
  ⟨signChars q ++ natDigits (roundHalfEvenND (q.num.natAbs : Int) (q.den : Int)).toNat⟩

/-- `fmt.Sprintf("%.1f", x)`: sign, integer part, a decimal point, and
exactly one fractional digit, obtained by rounding `|x| * 10` to an integer
(ties to even). -/
def fmtF1 (q : ℚ) : String :=
  ⟨signChars q ++
    natDigits ((roundHalfEvenND ((q.num.natAbs : Int) * 10) (q.den : Int)).toNat / 10) ++
    ['.', Nat.digitChar ((roundHalfEvenND ((q.num.natAbs : Int) * 10) (q.den : Int)).toNat % 10)]⟩

/-- Go's `int(x)` conversion on a `float64`: truncation toward zero. -/
def goTrunc (q : ℚ) : Int :=
  if q.num < 0 then -((q.num.natAbs / q.den : Nat) : Int) else ((q.num.natAbs / q.den : Nat) : Int)

/-- The `map[string]interface{}` literal handed to `ws.Broadcast` in
`vfrmap/main.go` (lines 143-153), in source order. -/
def buildMessage (r : Report) : List (String × JValue) :=
  [("latitude", JValue.num r.Latitude),
   ("longitude", JValue.num r.Longitude),
   ("altitude", JValue.str (fmtF0 r.Altitude)),
   ("heading", JValue.int (goTrunc r.Heading)),
   ("airspeed", JValue.str (fmtF0 r.Airspeed)),
   ("vertical_speed", JValue.str (fmtF0 r.VerticalSpeed)),
   ("flaps", JValue.str (fmtF0 r.Flaps)),
   ("trim", JValue.str (fmtF1 r.Trim)),
   ("rudder_trim", JValue.str (fmtF1 r.RudderTrim))]

/-- An observable effect of one iteration of the acquisition loop or of the
coordinator loop. -/
inductive Effect where
  | printLog (line : String)
  | broadcast (msg : List (String × JValue))
  | requestData
  | sleep (ms : Nat)
  | closeConn
deriving DecidableEq, Repr

/-- How an iteration ends.  `cont` continues the loop; `exit code` is
`os.Exit(code)`; `crash msg` is a Go `panic`, which reports the error text
to the console and terminates the process with a non-zero exit status. -/
inductive Outcome where
  | cont
  | exit (code : Nat)
  | crash (msg : String)
deriving DecidableEq, Repr

/-- Modelled from the spec: the distinguished "no data yet" result code of
the external telemetry API (`simconnect.E_FAIL`, the HRESULT `0x80004005`);
the `simconnect` package is outside the verified sources, and only the
value's distinguishedness matters here. -/
def E_FAIL : Int := 2147500037

/-- Modelled from the spec: response-kind discriminator for an exception
response of the external telemetry API. -/
def RECV_ID_EXCEPTION : Nat := 1

/-- Modelled from the spec: response-kind discriminator for an open
acknowledgment of the external telemetry API. -/
def RECV_ID_OPEN : Nat := 2

/-- Modelled from the spec: response-kind discriminator for a generic event
of the external telemetry API. -/
def RECV_ID_EVENT : Nat := 4

/-- Modelled from the spec: response-kind discriminator for an object-data
response of the external telemetry API. -/
def RECV_ID_SIMOBJECT_DATA_BYTYPE : Nat := 9

/-- A decoded response buffer: its kind discriminator `id` plus the payload
fields the loop reads, depending on the kind. -/
structure RecvMsg where
  id : Nat
  appName : String
  eventID : Nat
  requestID : Nat
  report : Report
deriving DecidableEq, Repr

/-- The triple returned by `s.GetNextDispatch()`: the signed result code
`r1`, the accompanying error text, and (when `r1` is non-negative) the
response buffer. -/
structure Dispatch where
  r1 : Int
  errText : String
  recv : RecvMsg
deriving DecidableEq, Repr

/-- The `switch recvInfo.ID` body of the acquisition loop
(`vfrmap/main.go` lines 107-159): the effects performed for one decoded
response, given the verbose flag and the registered Report define ID
(`s.DefineMap["Report"]`). -/
def recvEffects (verbose : Bool) (reportDefineID : Nat) (m : RecvMsg) : List Effect :=
  if m.id = RECV_ID_EXCEPTION then
    [Effect.printLog "SIMCONNECT_RECV_ID_EXCEPTION"]
  else if m.id = RECV_ID_OPEN then
    [Effect.printLog ("SIMCONNECT_RECV_ID_OPEN " ++ m.appName)]
  else if m.id = RECV_ID_EVENT then
    [Effect.printLog "SIMCONNECT_RECV_ID_EVENT",
     Effect.printLog ("unknown SIMCONNECT_RECV_ID_EVENT " ++ toString m.eventID)]
  else if m.id = RECV_ID_SIMOBJECT_DATA_BYTYPE then
    if m.requestID = reportDefineID then
      (if verbose then [Effect.printLog ("REPORT: " ++ reprStr m.report)] else []) ++
        [Effect.broadcast (buildMessage m.report), Effect.requestData]
    else []
  else
    [Effect.printLog ("recvInfo.ID unknown " ++ toString m.id)]

/-- One iteration of the acquisition goroutine's `for` loop
(`vfrmap/main.go` lines 95-163), as a function of the polled dispatch.
A negative `r1` whose unsigned 32-bit value is `E_FAIL` is the `continue`
path (no effects, not even the sleep); any other negative `r1` panics with
the formatted error; otherwise the response is dispatched on its kind and
the iteration ends with the fixed `time.Sleep(100 ms)`. -/
def loopStep (verbose : Bool) (reportDefineID : Nat) (d : Dispatch) : List Effect × Outcome :=
  if d.r1 < 0 then
    if d.r1 % 4294967296 = E_FAIL then ([], Outcome.cont)
    else ([], Outcome.crash ("GetNextDispatch error: " ++ toString d.r1 ++ " " ++ d.errText))
  else
    (recvEffects verbose reportDefineID d.recv ++ [Effect.sleep 100], Outcome.cont)

/-- An event the coordinator `select` loop can receive: the interrupt /
termination signal, a new websocket connection, or an inbound client
message. -/
inductive WsEvent where
  | exitSignal
  | newConnection
  | receiveMessage
deriving DecidableEq, Repr

/-- One iteration of the coordinator `select` loop (`vfrmap/main.go`
lines 197-215).  `closeResult` is what `s.Close()` would return if called
(`none` on success, `some e` on failure).  New-connection events and inbound
client messages are drained with empty case bodies. -/
def coordStep (closeResult : Option String) (ev : WsEvent) : List Effect × Outcome :=
  match ev with
  | WsEvent.exitSignal =>
      match closeResult with
      | none => ([Effect.printLog "exiting..", Effect.closeConn], Outcome.exit 0)
      | some e => ([Effect.printLog "exiting..", Effect.closeConn], Outcome.crash e)
  | WsEvent.newConnection => ([], Outcome.cont)
  | WsEvent.receiveMessage => ([], Outcome.cont)

/-- The rational zero, given by its reduced fraction. -/
def q0 : ℚ :=
  ⟨0, 1, by decide, by decide⟩

/-- The example scenario's altitude `1000.4`, given by its reduced
fraction. -/
def qAltC1 : ℚ :=
  ⟨5002, 5, by decide, by decide⟩

/-- The example scenario's latitude `47.449`, given by its reduced
fraction. -/
def qLatC1 : ℚ :=
  ⟨47449, 1000, by decide, by decide⟩

/-- The example scenario's longitude `-122.309`, given by its reduced
fraction. -/
def qLonC1 : ℚ :=
  ⟨-122309, 1000, by decide, by decide⟩

/-- The example scenario's heading `183.7`, given by its reduced
fraction. -/
def qHdgC1 : ℚ :=
  ⟨1837, 10, by decide, by decide⟩

/-- The example scenario's airspeed `120.2`, given by its reduced
fraction. -/
def qSpdC1 : ℚ :=
  ⟨601, 5, by decide, by decide⟩

/-- The example scenario's vertical speed `-50.0`, given by its reduced
fraction. -/
def qVsC1 : ℚ :=
  ⟨-50, 1, by decide, by decide⟩

/-- The example scenario's trim `2.3`, given by its reduced fraction. -/
def qTrimC1 : ℚ :=
  ⟨23, 10, by decide, by decide⟩

/-- A report with all fields zeroed, used as a concrete sample value. -/
def report0 : Report :=
  ⟨"", q0, q0, q0, q0, q0, q0, q0, q0, q0⟩

/-- A sample response buffer of kind 0 (`RECV_ID_NULL`). -/
def recv0 : RecvMsg :=
  ⟨0, "", 0, 0, report0⟩

/-- The concrete record of the spec's example scenario:
`latitude=47.449, longitude=-122.309, altitude=1000.4, heading=183.7,
airspeed=120.2, vertical_speed=-50.0, flaps=0.0, trim=2.3,
rudder_trim=0.0`. -/
def reportC1 : Report :=
  ⟨"", qAltC1, qLatC1, qLonC1, qHdgC1, qSpdC1, qVsC1, q0, qTrimC1, q0⟩

/-- `s` contains no decimal point. -/
def noDot (s : String) : Prop :=
  '.' ∉ s.data

/-- `s` ends in a decimal point followed by exactly one digit, and has no
other decimal point. -/
def oneDecimal (s : String) : Prop :=
  ∃ pre c, s.data = pre ++ ['.', c] ∧ c.isDigit = true ∧ '.' ∉ pre

/-- The broadcast payloads occurring in an effect trace, in order. -/
def broadcastsOf (l : List Effect) : List (List (String × JValue)) :=
  l.filterMap fun e =>
    match e with
    | Effect.broadcast m => some m
    | _ => none

/-- A report used in witnesses whose title is `"A"` and whose numeric
fields are all zero. -/
def reportA : Report :=
  ⟨"A", q0, q0, q0, q0, q0, q0, q0, q0, q0⟩

/-- A report used in witnesses whose title is `"B"` and whose numeric
fields are all zero. -/
def reportB : Report :=
  ⟨"B", q0, q0, q0, q0, q0, q0, q0, q0, q0⟩

lemma digitChar_isDigit_of_lt {m : Nat} (h : m < 10) : (Nat.digitChar m).isDigit = true := by
  interval_cases m <;> decide

lemma digitChar_ne_dot {m : Nat} (h : m < 10) : Nat.digitChar m ≠ '.' := by
  interval_cases m <;> decide

lemma mem_natDigitsCore {c : Char} :
    ∀ (fuel n : Nat) (acc : List Char), c ∈ natDigitsCore fuel n acc →
      c ∈ acc ∨ ∃ m, m < 10 ∧ c = Nat.digitChar m := by
  intro fuel
  induction fuel with
  | zero =>
      intro n acc h
      exact Or.inl h
  | succ fuel ih =>
      intro n acc h
      rw [natDigitsCore] at h
      by_cases hn : n = 0
      · rw [if_pos hn] at h
        exact Or.inl h
      · rw [if_neg hn] at h
        rcases ih _ _ h with h1 | h1
        · rcases List.mem_cons.mp h1 with h2 | h2
          · exact Or.inr ⟨n % 10, Nat.mod_lt _ (by decide), h2⟩
          · exact Or.inl h2
        · exact Or.inr h1

lemma mem_natDigits {n : Nat} {c : Char} (h : c ∈ natDigits n) :
    ∃ m, m < 10 ∧ c = Nat.digitChar m := by
  unfold natDigits at h
  by_cases hn : n = 0
  · rw [if_pos hn] at h
    have h1 : c = '0' := List.mem_singleton.mp h
    exact ⟨0, by decide, by rw [h1]; decide⟩
  · rw [if_neg hn] at h
    rcases mem_natDigitsCore _ _ _ h with h1 | h1
    · exact absurd h1 (List.not_mem_nil c)
    · exact h1

lemma dot_not_mem_signChars (q : ℚ) : '.' ∉ signChars q := by
  unfold signChars
  split
  · decide
  · decide

lemma noDot_fmtF0 (q : ℚ) : noDot (fmtF0 q) := by
  intro h
  have h' : '.' ∈
      signChars q ++ natDigits (roundHalfEvenND (q.num.natAbs : Int) (q.den : Int)).toNat := h
  rcases List.mem_append.mp h' with h1 | h1
  · exact dot_not_mem_signChars q h1
  · rcases mem_natDigits h1 with ⟨m, hm, he⟩
    exact digitChar_ne_dot hm he.symm

lemma oneDecimal_fmtF1 (q : ℚ) : oneDecimal (fmtF1 q) := by
  refine ⟨signChars q ++
      natDigits ((roundHalfEvenND ((q.num.natAbs : Int) * 10) (q.den : Int)).toNat / 10),
    Nat.digitChar ((roundHalfEvenND ((q.num.natAbs : Int) * 10) (q.den : Int)).toNat % 10),
    rfl, digitChar_isDigit_of_lt (Nat.mod_lt _ (by decide)), ?_⟩
  intro h
  rcases List.mem_append.mp h with h1 | h1
  · exact dot_not_mem_signChars q h1
  · rcases mem_natDigits h1 with ⟨m, hm, he⟩
    exact digitChar_ne_dot hm he.symm

lemma broadcastsOf_recvEffects (v : Bool) (rid : Nat) (m : RecvMsg) :
    broadcastsOf (recvEffects v rid m) = broadcastsOf (recvEffects false rid m) := by
  unfold recvEffects
  split_ifs <;> cases v <;> simp [broadcastsOf]

/-- C1: for the decoded record with latitude 47.449, longitude -122.309,
altitude 1000.4, heading 183.7, airspeed 120.2, vertical speed -50.0,
flaps 0.0, trim 2.3 and rudder trim 0.0, the message handed to the
broadcast operation is exactly the nine-key object
`latitude 47.449 (number), longitude -122.309 (number), altitude "1000",
heading 183 (integer), airspeed "120", vertical_speed "-50", flaps "0",
trim "2.3", rudder_trim "0.0"`. -/
theorem C1_example_message :
    buildMessage reportC1 =
      [("latitude", JValue.num qLatC1),
       ("longitude", JValue.num qLonC1),
       ("altitude", JValue.str "1000"),
       ("heading", JValue.int 183),
       ("airspeed", JValue.str "120"),
       ("vertical_speed", JValue.str "-50"),
       ("flaps", JValue.str "0"),
       ("trim", JValue.str "2.3"),
       ("rudder_trim", JValue.str "0.0")] ∧
    (loopStep false 1 ⟨0, "", ⟨9, "", 0, 1, reportC1⟩⟩).1 =
      [Effect.broadcast
        [("latitude", JValue.num qLatC1),
         ("longitude", JValue.num qLonC1),
         ("altitude", JValue.str "1000"),
         ("heading", JValue.int 183),
         ("airspeed", JValue.str "120"),
         ("vertical_speed", JValue.str "-50"),
         ("flaps", JValue.str "0"),
         ("trim", JValue.str "2.3"),
         ("rudder_trim", JValue.str "0.0")],
       Effect.requestData, Effect.sleep 100] := by
  constructor
  · decide
  · decide

/-- C2: for every decoded report, the broadcast message has exactly the
nine keys in source order; latitude and longitude are passed through as the
record's raw numbers; altitude, airspeed, vertical speed and flaps are the
`%.0f`-formatted strings; trim and rudder trim are the `%.1f`-formatted
strings; heading is the truncated integer; and the `%.0f` format emits no
decimal point while the `%.1f` format emits exactly one fractional digit
after a single decimal point. -/
theorem C2_message_shape (r : Report) :
    (buildMessage r).map Prod.fst =
      ["latitude", "longitude", "altitude", "heading", "airspeed",
       "vertical_speed", "flaps", "trim", "rudder_trim"] ∧
    List.lookup "latitude" (buildMessage r) = some (JValue.num r.Latitude) ∧
    List.lookup "longitude" (buildMessage r) = some (JValue.num r.Longitude) ∧
    List.lookup "altitude" (buildMessage r) = some (JValue.str (fmtF0 r.Altitude)) ∧
    List.lookup "heading" (buildMessage r) = some (JValue.int (goTrunc r.Heading)) ∧
    List.lookup "airspeed" (buildMessage r) = some (JValue.str (fmtF0 r.Airspeed)) ∧
    List.lookup "vertical_speed" (buildMessage r) = some (JValue.str (fmtF0 r.VerticalSpeed)) ∧
    List.lookup "flaps" (buildMessage r) = some (JValue.str (fmtF0 r.Flaps)) ∧
    List.lookup "trim" (buildMessage r) = some (JValue.str (fmtF1 r.Trim)) ∧
    List.lookup "rudder_trim" (buildMessage r) = some (JValue.str (fmtF1 r.RudderTrim)) ∧
    (∀ q : ℚ, noDot (fmtF0 q)) ∧
    (∀ q : ℚ, oneDecimal (fmtF1 q)) :=
  ⟨rfl, rfl, rfl, rfl, rfl, rfl, rfl, rfl, rfl, rfl, noDot_fmtF0, oneDecimal_fmtF1⟩

/-- C2 witness: the key list of a concrete report's broadcast message. -/
theorem C2_witness :
    (buildMessage report0).map Prod.fst =
      ["latitude", "longitude", "altitude", "heading", "airspeed",
       "vertical_speed", "flaps", "trim", "rudder_trim"] :=
  (C2_message_shape report0).1

/-- C3: when the poll result is negative, the E_FAIL ("no data yet") case
retries immediately and silently — no effects at all, in particular no
pause and no error report, and the loop continues — while every other
negative result panics: the error is reported and the process terminates
with no retry. -/
theorem C3_negative_dispatch (v : Bool) (rid : Nat) (d : Dispatch) (h : d.r1 < 0) :
    (d.r1 % 4294967296 = E_FAIL → loopStep v rid d = ([], Outcome.cont)) ∧
    (d.r1 % 4294967296 ≠ E_FAIL →
      loopStep v rid d =
        ([], Outcome.crash ("GetNextDispatch error: " ++ toString d.r1 ++ " " ++ d.errText))) := by
  constructor
  · intro hf
    simp [loopStep, h, hf]
  · intro hf
    simp [loopStep, h, hf]

/-- C3 witness: the E_FAIL code (signed 32-bit -2147467259) is retried
silently; the negative result -1 crashes with the formatted error. -/
theorem C3_witness :
    loopStep false 0 ⟨-2147467259, "", recv0⟩ = ([], Outcome.cont) ∧
    loopStep false 0 ⟨-1, "boom", recv0⟩ =
      ([], Outcome.crash "GetNextDispatch error: -1 boom") := by
  constructor
  · exact (C3_negative_dispatch false 0 ⟨-2147467259, "", recv0⟩ (by decide)).1 (by decide)
  · exact ((C3_negative_dispatch false 0 ⟨-1, "boom", recv0⟩ (by decide)).2 (by decide)).trans
      (by decide)

/-- C4 (amended): receiving a response of an unrecognized kind does not
terminate the acquisition loop and does not emit a broadcast; the loop logs
the unknown kind and, after the fixed pause, returns to polling — it does
NOT issue a new telemetry data request. -/
theorem C4_unknown_kind (v : Bool) (rid : Nat) (d : Dispatch) (h0 : 0 ≤ d.r1)
    (h1 : d.recv.id ≠ RECV_ID_EXCEPTION) (h2 : d.recv.id ≠ RECV_ID_OPEN)
    (h3 : d.recv.id ≠ RECV_ID_EVENT) (h4 : d.recv.id ≠ RECV_ID_SIMOBJECT_DATA_BYTYPE) :
    loopStep v rid d =
      ([Effect.printLog ("recvInfo.ID unknown " ++ toString d.recv.id), Effect.sleep 100],
        Outcome.cont) := by
  have hlt : ¬ d.r1 < 0 := not_lt.mpr h0
  simp [loopStep, recvEffects, hlt, h1, h2, h3, h4]

/-- C4 counterexample: for the unrecognized kind 42, the iteration performs
no telemetry data request, contrary to the claim that it issues its next
telemetry data request afterward. -/
theorem C4_counterexample :
    Effect.requestData ∉ (loopStep false 0 ⟨0, "", ⟨42, "", 0, 0, report0⟩⟩).1 ∧
    (loopStep false 0 ⟨0, "", ⟨42, "", 0, 0, report0⟩⟩).2 = Outcome.cont := by
  constructor
  · decide
  · decide

/-- C4 witness: the amended theorem evaluated at the unrecognized kind 3. -/
theorem C4_witness :
    loopStep false 0 ⟨0, "", ⟨3, "", 0, 0, report0⟩⟩ =
      ([Effect.printLog "recvInfo.ID unknown 3", Effect.sleep 100], Outcome.cont) :=
  (C4_unknown_kind false 0 ⟨0, "", ⟨3, "", 0, 0, report0⟩⟩
    (by decide) (by decide) (by decide) (by decide) (by decide)).trans (by decide)

/-- C5 (amended): an object-data response whose request identifier does not
match the outstanding Report request is non-fatal and silently ignored — it
is not logged — and the loop emits no broadcast for it and continues
awaiting the next dispatch after the fixed pause. -/
theorem C5_request_mismatch (v : Bool) (rid : Nat) (d : Dispatch) (h0 : 0 ≤ d.r1)
    (h1 : d.recv.id = RECV_ID_SIMOBJECT_DATA_BYTYPE) (h2 : d.recv.requestID ≠ rid) :
    loopStep v rid d = ([Effect.sleep 100], Outcome.cont) := by
  have hlt : ¬ d.r1 < 0 := not_lt.mpr h0
  simp [loopStep, recvEffects, hlt, h1, h2,
    RECV_ID_EXCEPTION, RECV_ID_OPEN, RECV_ID_EVENT, RECV_ID_SIMOBJECT_DATA_BYTYPE]

/-- C5 counterexample: for an object-data response with request identifier
7 while the Report request identifier is 5, the whole effect trace is the
pause alone — no log line is emitted, contrary to the claim that the
mismatch is logged. -/
theorem C5_counterexample :
    (loopStep false 5 ⟨0, "", ⟨9, "", 0, 7, report0⟩⟩).1 = [Effect.sleep 100] := by
  decide

/-- C5 witness: the amended theorem evaluated at a concrete mismatch. -/
theorem C5_witness :
    loopStep true 2 ⟨0, "", ⟨9, "", 0, 1, report0⟩⟩ = ([Effect.sleep 100], Outcome.cont) :=
  C5_request_mismatch true 2 ⟨0, "", ⟨9, "", 0, 1, report0⟩⟩ (by decide) (by decide) (by decide)

/-- C6: on every object-data response matching the Report request
identifier, the iteration's effect trace is the optional verbose log
followed by the broadcast of the projected message, then the telemetry
request reissue, then the pause: the broadcast strictly precedes the
request reissue in every such cycle. -/
theorem C6_broadcast_precedes_request (v : Bool) (rid : Nat) (d : Dispatch) (h0 : 0 ≤ d.r1)
    (h1 : d.recv.id = RECV_ID_SIMOBJECT_DATA_BYTYPE) (h2 : d.recv.requestID = rid) :
    (loopStep v rid d).1 =
      (if v then [Effect.printLog ("REPORT: " ++ reprStr d.recv.report)] else []) ++
        [Effect.broadcast (buildMessage d.recv.report), Effect.requestData,
         Effect.sleep 100] := by
  have hlt : ¬ d.r1 < 0 := not_lt.mpr h0
  cases v <;>
    simp [loopStep, recvEffects, hlt, h1, h2,
      RECV_ID_EXCEPTION, RECV_ID_OPEN, RECV_ID_EVENT, RECV_ID_SIMOBJECT_DATA_BYTYPE]

/-- C6 witness: the matched-response trace at a concrete dispatch, showing
the broadcast immediately before the request reissue. -/
theorem C6_witness :
    (loopStep false 3 ⟨0, "", ⟨9, "", 0, 3, report0⟩⟩).1 =
      [Effect.broadcast (buildMessage report0), Effect.requestData, Effect.sleep 100] :=
  (C6_broadcast_precedes_request false 3 ⟨0, "", ⟨9, "", 0, 3, report0⟩⟩
    (by decide) (by decide) (by decide)).trans (by simp)

/-- C7: every iteration that actually processed a response — any
non-negative poll result, whether or not a record was published, and for
exception, open, event, matched, mismatched and unrecognized kinds alike —
ends with the fixed 100 ms pause and continues the loop. -/
theorem C7_fixed_pause (v : Bool) (rid : Nat) (d : Dispatch) (h0 : 0 ≤ d.r1) :
    (loopStep v rid d).1.getLast? = some (Effect.sleep 100) ∧
    (loopStep v rid d).2 = Outcome.cont := by
  have hlt : ¬ d.r1 < 0 := not_lt.mpr h0
  constructor
  · simp [loopStep, hlt, List.getLast?_concat]
  · simp [loopStep, hlt]

/-- C7 witness: the pause closes the iteration at a concrete dispatch. -/
theorem C7_witness :
    (loopStep false 0 ⟨0, "", recv0⟩).1.getLast? = some (Effect.sleep 100) :=
  (C7_fixed_pause false 0 ⟨0, "", recv0⟩ (by decide)).1

/-- C8: on the interrupt / termination signal the coordinator prints the
farewell, closes the telemetry connection and exits with status 0; if the
close fails, it instead panics with the close error, which reports the
error and terminates the process with a non-zero status. -/
theorem C8_shutdown (e : String) :
    coordStep none WsEvent.exitSignal =
      ([Effect.printLog "exiting..", Effect.closeConn], Outcome.exit 0) ∧
    coordStep (some e) WsEvent.exitSignal =
      ([Effect.printLog "exiting..", Effect.closeConn], Outcome.crash e) :=
  ⟨rfl, rfl⟩

/-- C9: new-connection events and inbound client messages are drained and
discarded by the coordinator: consuming one produces no effects at all —
no broadcast, no telemetry request, no log line, no state change — and the
loop continues, independently of what closing the connection would
return. -/
theorem C9_drain_and_discard (res : Option String) :
    coordStep res WsEvent.newConnection = ([], Outcome.cont) ∧
    coordStep res WsEvent.receiveMessage = ([], Outcome.cont) :=
  ⟨rfl, rfl⟩

/-- C10: the broadcast payloads of an iteration are identical for any two
settings of the verbose flag, and the projected message is a function of
the record's numeric fields alone — two reports agreeing on all nine
numeric fields (the title may differ) yield equal messages. -/
theorem C10_verbose_noninterference (v₁ v₂ : Bool) (rid : Nat) (d : Dispatch) :
    broadcastsOf (loopStep v₁ rid d).1 = broadcastsOf (loopStep v₂ rid d).1 ∧
    (∀ r₁ r₂ : Report, r₁.Altitude = r₂.Altitude → r₁.Latitude = r₂.Latitude →
      r₁.Longitude = r₂.Longitude → r₁.Heading = r₂.Heading → r₁.Airspeed = r₂.Airspeed →
      r₁.VerticalSpeed = r₂.VerticalSpeed → r₁.Flaps = r₂.Flaps → r₁.Trim = r₂.Trim →
      r₁.RudderTrim = r₂.RudderTrim → buildMessage r₁ = buildMessage r₂) := by
  constructor
  · by_cases hlt : d.r1 < 0
    · by_cases hf : d.r1 % 4294967296 = E_FAIL <;> simp [loopStep, hlt, hf]
    · simp only [loopStep, if_neg hlt]
      simp only [broadcastsOf, List.filterMap_append]
      rw [show List.filterMap _ (recvEffects v₁ rid d.recv) =
            broadcastsOf (recvEffects v₁ rid d.recv) from rfl,
          show List.filterMap _ (recvEffects v₂ rid d.recv) =
            broadcastsOf (recvEffects v₂ rid d.recv) from rfl,
          broadcastsOf_recvEffects v₁ rid d.recv, broadcastsOf_recvEffects v₂ rid d.recv]
  · intro r₁ r₂ h1 h2 h3 h4 h5 h6 h7 h8 h9
    simp [buildMessage, h1, h2, h3, h4, h5, h6, h7, h8, h9]

/-- C10 witness: verbose on versus off at a matched dispatch yields the
same broadcast payloads, and two reports differing only in their titles
project to the same message. -/
theorem C10_witness :
    broadcastsOf (loopStep true 3 ⟨0, "", ⟨9, "", 0, 3, reportA⟩⟩).1 =
      broadcastsOf (loopStep false 3 ⟨0, "", ⟨9, "", 0, 3, reportA⟩⟩).1 ∧
    buildMessage reportA = buildMessage reportB := by
  have h := C10_verbose_noninterference true false 3 ⟨0, "", ⟨9, "", 0, 3, reportA⟩⟩
  exact ⟨h.1, h.2 reportA reportB rfl rfl rfl rfl rfl rfl rfl rfl rfl⟩

end Vfrmap
